import Mathlib

/-!
Verification of the synthetic-test orchestrator and the override resolver of
the `datadog-ci` repository, as a shallow embedding in Lean 4.

Part 1 embeds the override resolver
(`validateAndParseOverrides`, `parseOverrideValue`, `toBoolean`, `toNumber`,
`toExecutionRule`, the allow-list and the nearest-key suggestion based on
Levenshtein distance) from `src/commands/synthetics/utils` (shipped here
appended to `src/commands/dependencies/upload.ts`).

Part 2 embeds `getTriggerConfigs` and the control flow of `executeTests`
from `src/commands/synthetics/run-tests-lib.ts`.  Asynchronous collaborators
(API calls, the tunnel transport, `waitForResults`) are modelled by an
oracle environment giving the outcome of each awaited call, and the
side-effects the specification talks about (tunnel stops, reporter
messages) are recorded in an explicit log.
-/

set_option autoImplicit false

namespace DatadogCI

/-! ### Execution rules (enum `ExecutionRule` from `interfaces.ts`)

Modelled from the spec: the `interfaces` module is not part of the sources
here; the spec only uses `executionRule` as an enum coerced case-insensitively
from strings, with the standard values `blocking`, `non_blocking`, `skipped`.
-/

inductive ExecutionRule where
  | blocking
  | non_blocking
  | skipped
deriving DecidableEq, Repr

/-- JavaScript `toLowerCase()`, character by character (ASCII case folding;
no claim involves letters outside ASCII). -/
def jsToLowerCase (s : String) : String :=
  ⟨s.data.map Char.toLower⟩

/-- Mirrors `toBoolean` (utils): `'true'` case-insensitively or `'1'` gives
`true`, `'false'` case-insensitively or `'0'` gives `false`, anything else
(including `undefined`, modelled as `none`) gives `undefined`. -/
def toBoolean : Option String → Option Bool
  | none => none
  | some env =>
    if jsToLowerCase env = "true" ∨ env = "1" then some true
    else if jsToLowerCase env = "false" ∨ env = "0" then some false
    else none

/-- Is every character a decimal digit? -/
def allDigits (s : String) : Bool :=
  !s.data.isEmpty && s.data.all (·.isDigit)

/-- Decimal value of a digit string. -/
def digitsToNat (s : String) : Nat :=
  s.data.foldl (fun n c => n * 10 + (c.toNat - '0'.toNat)) 0

/-- Mirrors `toNumber` (utils): `undefined` or a blank string gives
`undefined`, otherwise `Number(env)` with `NaN` mapped to `undefined`.
JavaScript `Number` coercion is modelled on decimal naturals only
(no claim under verification depends on fractional, signed, or exotic
numeric forms). -/
def toNumber : Option String → Option Nat
  | none => none
  | some env =>
    if env.trim = "" then none
    else if allDigits env.trim then some (digitsToNat env.trim)
    else none

/-- Mirrors `toExecutionRule` (utils): the lower-cased value must be one of
the enum values. -/
def toExecutionRule : Option String → Option ExecutionRule
  | none => none
  | some env =>
    if jsToLowerCase env = "blocking" then some .blocking
    else if jsToLowerCase env = "non_blocking" then some .non_blocking
    else if jsToLowerCase env = "skipped" then some .skipped
    else none

/-! ### Levenshtein distance (the `fast-levenshtein` dependency)

Plain unit-cost edit distance, computed row by row so that concrete
instances evaluate cheaply. -/

/-- One inner step of the dynamic program: given the cost `diag` above-left,
the remainder `above` of the previous row, and the cost `left` just computed,
produce the rest of the current row for the remaining characters `bs`. -/
def levRowAux (c : Char) : List Char → Nat → List Nat → Nat → List Nat
  | [], _, _, _ => []
  | b :: bs, diag, above, left =>
    match above with
    | [] => []
    | a :: rest =>
      let cur := min (left + 1) (min (a + 1) (diag + (if c = b then 0 else 1)))
      cur :: levRowAux c bs a rest cur

/-- Fold the rows of the edit-distance table over the characters of the
first word. -/
def levLoop : List Char → List Char → List Nat → List Nat
  | [], _, row => row
  | c :: cs, bs, row =>
    let first := row.headD 0 + 1
    levLoop cs bs (first :: levRowAux c bs (row.headD 0) (row.tailD []) first)

/-- Unit-cost Levenshtein edit distance between two strings
(the semantics of `levenshtein.get` from `fast-levenshtein`). -/
def levenshtein (a b : String) : Nat :=
  (levLoop a.data b.data (List.range (b.length + 1))).getLastD 0

/-- Mirrors `allOverrideKeys` (utils), in source order. -/
def allOverrideKeys : List String :=
  ["cookies", "retry", "basicAuth", "allowInsecureCertificates", "body",
   "bodyType", "defaultStepTimeout", "deviceIds", "executionRule",
   "followRedirects", "headers", "locations", "pollingTimeout",
   "resourceUrlSubstitutionRegexes", "startUrl", "startUrlSubstitutionRegex",
   "testTimeout", "variables"]

/-- Mirrors `allOverrideKeys.reduce((prev, curr) => levenshtein.get(curr, key)
< levenshtein.get(prev, key) ? curr : prev)`: the first key of the allow-list
at minimal edit distance from `key`. -/
def closestKey (key : String) : String :=
  match allOverrideKeys with
  | [] => key
  | k :: ks =>
    ks.foldl (fun prev curr =>
      if levenshtein curr key < levenshtein prev key then curr else prev) k

/-! ### Typed override values and the accumulator -/

/-- The union type `TestOverrideValueType = boolean | number | string |
string[] | ExecutionRule`. -/
inductive OValue where
  | b (b : Bool)
  | n (n : Nat)
  | s (s : String)
  | sl (l : List String)
  | er (r : ExecutionRule)
deriving DecidableEq, Repr

/-- `ValidTestOverrideValueTypeName`. -/
inductive OValueTypeName where
  | boolean
  | number
  | string
  | stringList
  | executionRule
deriving DecidableEq, Repr

/-- Errors thrown by the resolver, one constructor per `throw` site of
`parseOverrideValue` and `validateAndParseOverrides` (messages are carried
structurally instead of as interpolated strings). -/
inductive OverrideError where
  /-- `Invalid boolean value: ...` -/
  | invalidBoolean (value : String)
  /-- `Invalid number value: ...` -/
  | invalidNumber (value : String)
  /-- `Invalid ExecutionRule value: ...` -/
  | invalidExecutionRule (value : String)
  /-- `Invalid subkey for ...` -/
  | invalidSubkey (key : String)
  /-- `The path "key.subKey" is invalid. Did you mean ...` (cookies) -/
  | invalidCookiesPath (key subKey : String)
  /-- `No subkey found for ...` -/
  | noSubkey (key : String)
  /-- `Invalid key: ...` -/
  | invalidKey (key : String)
  /-- `Invalid key: ... . Did you mean: ... ?` -/
  | invalidKeyWithSuggestion (key closest : String)
deriving DecidableEq, Repr

/-- Mirrors `parseOverrideValue`: coerce a raw string to the declared type of
its key, or throw. -/
def parseOverrideValue (value : String) : OValueTypeName → Except OverrideError OValue
  | .boolean =>
    match toBoolean (some value) with
    | some b => .ok (.b b)
    | none => .error (.invalidBoolean value)
  | .number =>
    match toNumber (some value) with
    | some n => .ok (.n n)
    | none => .error (.invalidNumber value)
  | .string => .ok (.s value.trim)
  | .stringList => .ok (.sl ((value.splitOn ";").map String.trim))
  | .executionRule =>
    match toExecutionRule (some value) with
    | some r => .ok (.er r)
    | none => .error (.invalidExecutionRule value)

/-- The `as number` cast applied by the callers of `parseOverrideValue`
(total by construction; the fallback is never reached). -/
def OValue.asN : OValue → Nat
  | .n x => x
  | _ => 0

/-- The `as boolean` cast (total by construction). -/
def OValue.asB : OValue → Bool
  | .b x => x
  | _ => false

/-- The `as string` cast (total by construction). -/
def OValue.asS : OValue → String
  | .s x => x
  | _ => ""

/-- The `as string[]` cast (total by construction). -/
def OValue.asSL : OValue → List String
  | .sl x => x
  | _ => []

/-- The `as ExecutionRule` cast (total by construction). -/
def OValue.asER : OValue → ExecutionRule
  | .er x => x
  | _ => .blocking

/-- `Partial<RetryConfig>`. -/
structure RetryConfig where
  count : Option Nat := none
  interval : Option Nat := none
deriving DecidableEq, Repr

/-- `Partial<BasicAuthCredentials>`. -/
structure BasicAuthCredentials where
  username : Option String := none
  password : Option String := none
deriving DecidableEq, Repr

/-- The cookies object accumulated by the resolver
(`{value?: string, append?: boolean}`). -/
structure CookiesObject where
  value : Option String := none
  append : Option Bool := none
deriving DecidableEq, Repr

/-- `AccumulatorBaseConfigOverride`: one optional field per key of the
allow-list; `headers` and `variables` are string maps, modelled as
insertion-ordered association lists like JavaScript object properties. -/
structure Accumulator where
  cookies : Option CookiesObject := none
  retry : Option RetryConfig := none
  basicAuth : Option BasicAuthCredentials := none
  allowInsecureCertificates : Option Bool := none
  body : Option String := none
  bodyType : Option String := none
  defaultStepTimeout : Option Nat := none
  deviceIds : Option (List String) := none
  executionRule : Option ExecutionRule := none
  followRedirects : Option Bool := none
  headers : Option (List (String × String)) := none
  locations : Option (List String) := none
  pollingTimeout : Option Nat := none
  resourceUrlSubstitutionRegexes : Option (List String) := none
  startUrl : Option String := none
  startUrlSubstitutionRegex : Option String := none
  testTimeout : Option Nat := none
  «variables» : Option (List (String × String)) := none
deriving DecidableEq, Repr

/-- JavaScript object property assignment `obj[k] = v` on a string map:
replace in place if the key exists, append otherwise. -/
def setMapEntry : List (String × String) → String → String → List (String × String)
  | [], k, v => [(k, v)]
  | (k', v') :: rest, k, v =>
    if k' = k then (k, v) :: rest else (k', v') :: setMapEntry rest k v

/-! ### Splitting an override string into key, sub-key and value -/

/-- JavaScript line terminators (`.` in a RegExp matches anything else). -/
def jsLineTerminator (c : Char) : Bool :=
  c = '\n' || c = '\r' || c = ' ' || c = ' '

/-- Split a character list at the first `'='`. -/
def splitAtFirstEq : List Char → Option (List Char × List Char)
  | [] => none
  | c :: cs =>
    if c = '=' then some ([], cs)
    else (splitAtFirstEq cs).map (fun p => (c :: p.1, p.2))

/-- Mirrors `override.match(/^(.*?)=(.*)$/)`: the match succeeds exactly when
the string contains an `'='` and no line terminator, and splits at the first
`'='` (the lazy group). -/
def matchKeyValue (s : String) : Option (String × String) :=
  if s.data.any jsLineTerminator then none
  else (splitAtFirstEq s.data).map (fun p => (⟨p.1⟩, ⟨p.2⟩))

/-- `match[1] ?? ''`: the raw key of an override string. -/
def rawKeyOf (s : String) : String :=
  ((matchKeyValue s).getD ("", "")).1

/-- `match[2] ?? ''`: the value of an override string. -/
def valueOf (s : String) : String :=
  ((matchKeyValue s).getD ("", "")).2

/-- JavaScript `split('.')` on a character list: the (always non-empty) list
of dot-separated segments. -/
def splitOnDot : List Char → List (List Char)
  | [] => [[]]
  | c :: cs =>
    let rest := splitOnDot cs
    if c = '.' then [] :: rest
    else (c :: rest.headD []) :: rest.tailD []

/-- `rawKey.split('.')[0]`: the top-level key of an override string. -/
def overrideKeyOf (s : String) : String :=
  ⟨(splitOnDot (rawKeyOf s).data).headD []⟩

/-- `rawKey.split('.')[1]`: the sub-key of an override string, when any. -/
def overrideSubKeyOf (s : String) : Option String :=
  ((splitOnDot (rawKeyOf s).data).get? 1).map (fun l => ⟨l⟩)

/-! ### The resolver -/

/-- One step of the `reduce` of `validateAndParseOverrides`: process a single
`key=value` override string into the accumulator, or throw.  The `switch` on
the top-level key is rendered as a chain of equality tests (all case labels
are distinct). -/
def parseOverride (acc : Accumulator) (override : String) : Except OverrideError Accumulator :=
  let value := valueOf override
  let key := overrideKeyOf override
  let subKey := overrideSubKeyOf override
  -- Convert to number
  if key = "defaultStepTimeout" then
    (parseOverrideValue value .number).map (fun v => {acc with defaultStepTimeout := some v.asN})
  else if key = "pollingTimeout" then
    (parseOverrideValue value .number).map (fun v => {acc with pollingTimeout := some v.asN})
  else if key = "testTimeout" then
    (parseOverrideValue value .number).map (fun v => {acc with testTimeout := some v.asN})
  -- Convert to boolean
  else if key = "allowInsecureCertificates" then
    (parseOverrideValue value .boolean).map (fun v => {acc with allowInsecureCertificates := some v.asB})
  else if key = "followRedirects" then
    (parseOverrideValue value .boolean).map (fun v => {acc with followRedirects := some v.asB})
  -- Convert to string
  else if key = "body" then
    (parseOverrideValue value .string).map (fun v => {acc with body := some v.asS})
  else if key = "bodyType" then
    (parseOverrideValue value .string).map (fun v => {acc with bodyType := some v.asS})
  else if key = "startUrl" then
    (parseOverrideValue value .string).map (fun v => {acc with startUrl := some v.asS})
  else if key = "startUrlSubstitutionRegex" then
    (parseOverrideValue value .string).map (fun v => {acc with startUrlSubstitutionRegex := some v.asS})
  -- Convert to string[]
  else if key = "deviceIds" then
    (parseOverrideValue value .stringList).map (fun v => {acc with deviceIds := some v.asSL})
  else if key = "locations" then
    (parseOverrideValue value .stringList).map (fun v => {acc with locations := some v.asSL})
  else if key = "resourceUrlSubstitutionRegexes" then
    (parseOverrideValue value .stringList).map (fun v => {acc with resourceUrlSubstitutionRegexes := some v.asSL})
  -- Convert to ExecutionRule
  else if key = "executionRule" then
    (parseOverrideValue value .executionRule).map (fun v => {acc with executionRule := some v.asER})
  -- Convert to RetryConfig
  else if key = "retry" then
    match subKey with
    | some "count" =>
      (parseOverrideValue value .number).map
        (fun v => {acc with retry := some {acc.retry.getD {} with count := some v.asN}})
    | some "interval" =>
      (parseOverrideValue value .number).map
        (fun v => {acc with retry := some {acc.retry.getD {} with interval := some v.asN}})
    | _ => .error (.invalidSubkey "retry")
  -- Convert to BasicAuthCredentials
  else if key = "basicAuth" then
    match subKey with
    | some "username" =>
      (parseOverrideValue value .string).map
        (fun v => {acc with basicAuth := some {acc.basicAuth.getD {} with username := some v.asS}})
    | some "password" =>
      (parseOverrideValue value .string).map
        (fun v => {acc with basicAuth := some {acc.basicAuth.getD {} with password := some v.asS}})
    | _ => .error (.invalidSubkey "basicAuth")
  -- Convert to cookies (either a string or an object); `if (subKey)` is a
  -- JavaScript truthiness test, so an empty sub-key behaves like no sub-key
  else if key = "cookies" then
    match subKey with
    | some sk =>
      if sk ≠ "" then
        if sk = "append" then
          (parseOverrideValue value .boolean).map
            (fun v => {acc with cookies := some {acc.cookies.getD {} with append := some v.asB}})
        else .error (.invalidCookiesPath "cookies" sk)
      else
        (parseOverrideValue value .string).map
          (fun v => {acc with cookies := some {acc.cookies.getD {} with value := some v.asS}})
    | none =>
      (parseOverrideValue value .string).map
        (fun v => {acc with cookies := some {acc.cookies.getD {} with value := some v.asS}})
  -- Convert to StringMap
  else if key = "headers" then
    match subKey with
    | some sk =>
      if sk ≠ "" then .ok {acc with headers := some (setMapEntry (acc.headers.getD []) sk value)}
      else .error (.noSubkey "headers")
    | none => .error (.noSubkey "headers")
  else if key = "variables" then
    match subKey with
    | some sk =>
      if sk ≠ "" then .ok {acc with «variables» := some (setMapEntry (acc.«variables».getD []) sk value)}
      else .error (.noSubkey "variables")
    | none => .error (.noSubkey "variables")
  -- default: unknown key, suggest the nearest one when close enough
  else
    if levenshtein (closestKey key) key > 5 then .error (.invalidKey key)
    else .error (.invalidKeyWithSuggestion key (closestKey key))

/-- Mirrors `validateAndParseOverrides`: fold all `key=value` strings into an
accumulator, aborting at the first error; `undefined` input gives `{}`. -/
def validateAndParseOverrides (overrides : Option (List String)) : Except OverrideError Accumulator :=
  match overrides with
  | none => .ok {}
  | some os => os.foldlM parseOverride {}

/-! ## Part 2: the trigger-and-poll orchestrator (`run-tests-lib.ts`) -/

/-- `UserConfigOverride` (from `interfaces.ts`): the per-test override record.
Its keys are the allow-list of the resolver plus, per the `Omit` in the
accumulator type, `mobileApplicationVersion`, `mobileApplicationVersionFilePath`
and `tunnel`.  All fields are optional; structured sub-objects reuse the
resolver's record types (the `Partial` distinction is collapsed — no claim
inspects sub-object totality). -/
structure UserConfigOverride where
  cookies : Option CookiesObject := none
  retry : Option RetryConfig := none
  basicAuth : Option BasicAuthCredentials := none
  allowInsecureCertificates : Option Bool := none
  body : Option String := none
  bodyType : Option String := none
  defaultStepTimeout : Option Nat := none
  deviceIds : Option (List String) := none
  executionRule : Option ExecutionRule := none
  followRedirects : Option Bool := none
  headers : Option (List (String × String)) := none
  locations : Option (List String) := none
  pollingTimeout : Option Nat := none
  resourceUrlSubstitutionRegexes : Option (List String) := none
  startUrl : Option String := none
  startUrlSubstitutionRegex : Option String := none
  testTimeout : Option Nat := none
  «variables» : Option (List (String × String)) := none
  mobileApplicationVersion : Option String := none
  mobileApplicationVersionFilePath : Option String := none
  tunnel : Option Bool := none
deriving DecidableEq, Repr

/-- JavaScript object spread `{...a, ...b}` on two override records: a key is
present in the result when present in either, and `b`'s value wins for every
key present in both. -/
def spreadMerge (a b : UserConfigOverride) : UserConfigOverride where
  cookies := b.cookies.or a.cookies
  retry := b.retry.or a.retry
  basicAuth := b.basicAuth.or a.basicAuth
  allowInsecureCertificates := b.allowInsecureCertificates.or a.allowInsecureCertificates
  body := b.body.or a.body
  bodyType := b.bodyType.or a.bodyType
  defaultStepTimeout := b.defaultStepTimeout.or a.defaultStepTimeout
  deviceIds := b.deviceIds.or a.deviceIds
  executionRule := b.executionRule.or a.executionRule
  followRedirects := b.followRedirects.or a.followRedirects
  headers := b.headers.or a.headers
  locations := b.locations.or a.locations
  pollingTimeout := b.pollingTimeout.or a.pollingTimeout
  resourceUrlSubstitutionRegexes := b.resourceUrlSubstitutionRegexes.or a.resourceUrlSubstitutionRegexes
  startUrl := b.startUrl.or a.startUrl
  startUrlSubstitutionRegex := b.startUrlSubstitutionRegex.or a.startUrlSubstitutionRegex
  testTimeout := b.testTimeout.or a.testTimeout
  «variables» := b.«variables».or a.«variables»
  mobileApplicationVersion := b.mobileApplicationVersion.or a.mobileApplicationVersion
  mobileApplicationVersionFilePath := b.mobileApplicationVersionFilePath.or a.mobileApplicationVersionFilePath
  tunnel := b.tunnel.or a.tunnel

/-- A test as returned by `getTestConfigs` (local test-config files) or
`getTestsFromSearchQuery`: an id plus optional embedded overrides (other
fields such as `suite` do not participate in any claim). -/
structure SourceTestConfig where
  id : String
  testOverrides : Option UserConfigOverride := none
deriving DecidableEq, Repr

/-- `TriggerConfig` as built by `getTriggerConfigs`: a test id and its merged
override set (the object literal always creates `testOverrides`). -/
structure TriggerConfig where
  id : String
  testOverrides : UserConfigOverride
deriving DecidableEq, Repr

/-- `findIndex` plus `splice(idx, 1)`: return the first element with the
given id, if any, and the list with that one element removed. -/
def findRemove (id : String) : List SourceTestConfig → Option SourceTestConfig × List SourceTestConfig
  | [] => (none, [])
  | t :: ts =>
    if t.id = id then (some t, ts)
    else
      let p := findRemove id ts
      (p.1, t :: p.2)

/-- The `testIdsToTrigger.map(...)` body of `getTriggerConfigs`: for each id
in order, splice out the matching search-query and test-config entries (at
most one each) and build a `TriggerConfig` whose `testOverrides` is
`{...defaultTestConfigOverrides, ...testFromTestConfigs?.testOverrides}`. -/
def buildTriggerConfigs (defaults : UserConfigOverride) :
    List String → List SourceTestConfig → List SourceTestConfig → List TriggerConfig
  | [], _, _ => []
  | id :: ids, search, files =>
    let ps := findRemove id search
    let pf := findRemove id files
    { id := id,
      testOverrides :=
        spreadMerge defaults ((pf.1.bind (·.testOverrides)).getD {}) }
      :: buildTriggerConfigs defaults ids ps.2 pf.2

/-- Mirrors `getTriggerConfigs`: pick the id list from the first source that
defines one — CLI ids, then search-query results, then test-config files —
and build one `TriggerConfig` per chosen id.  The asynchronous fetches
(`getTestConfigs`, `getTestsFromSearchQuery`) are parameters holding their
results. -/
def getTriggerConfigs (defaults : UserConfigOverride) (publicIds : List String)
    (testsFromSearchQuery testsFromTestConfigs : List SourceTestConfig) : List TriggerConfig :=
  let testIdsFromCli := publicIds
  let testIdsFromSearchQuery := testsFromSearchQuery.map (·.id)
  let testIdsFromTestConfigs := testsFromTestConfigs.map (·.id)
  let testIdsToTrigger :=
    (([testIdsFromCli, testIdsFromSearchQuery, testIdsFromTestConfigs].find?
        (fun ids => decide (0 < ids.length))).getD [])
  buildTriggerConfigs defaults testIdsToTrigger testsFromSearchQuery testsFromTestConfigs

/-- The specification's selection rule, in its own words: the first non-empty
source, in precedence order, is authoritative; sources are never unioned. -/
def selectFirstNonEmptySource (cliIds searchIds fileIds : List String) : List String :=
  if cliIds ≠ [] then cliIds
  else if searchIds ≠ [] then searchIds
  else fileIds

/-! ### The effective poll deadline -/

/-- `DEFAULT_BATCH_TIMEOUT` from `run-tests-command.ts`.
Modelled from the spec: that module is not among the sources; the spec calls
it "a global default" without fixing the value, and no claim depends on the
value — 30 minutes in milliseconds is used. -/
def DEFAULT_BATCH_TIMEOUT : Nat := 30 * 60 * 1000

/-- JavaScript `x || y` on an optional number: `undefined`, and `0`
(falsy), fall through to `y`. -/
def jsOr (x : Option Nat) (y : Nat) : Nat :=
  match x with
  | some v => if v = 0 then y else v
  | none => y

/-- The orchestrator configuration fields that participate in the claims
(`RunTestsCommandConfig`). -/
structure RunTestsConfig where
  batchTimeout : Option Nat := none
  pollingTimeout : Option Nat := none
  tunnel : Bool := false
deriving DecidableEq, Repr

/-- `replacePollingTimeoutWithBatchTimeout` applied at the top of
`executeTests`.  Modelled from the spec: the `compatibility` module is not
among the sources; the spec treats `pollingTimeout` as the deprecated alias
of `batchTimeout`, so the shim resolves `batchTimeout ?? pollingTimeout`,
leaving the field unset when neither is given (consistent with the explicit
`|| DEFAULT_BATCH_TIMEOUT` fallback kept downstream). -/
def replacePollingTimeoutWithBatchTimeout (config : RunTestsConfig) : Option Nat :=
  config.batchTimeout.or config.pollingTimeout

/-- The `maxPollingTimeout` computation of `executeTests` (`Math.max` across
trigger configs of `config.batchTimeout || t.testOverrides?.pollingTimeout ||
config.pollingTimeout || DEFAULT_BATCH_TIMEOUT`).  `Math.max` over the
(always non-empty) spread list is a fold of `max`; all operands are
non-negative. -/
def maxPollingTimeout (config : RunTestsConfig) (triggerConfigs : List TriggerConfig) : Nat :=
  (triggerConfigs.map (fun t =>
    jsOr config.batchTimeout
      (jsOr t.testOverrides.pollingTimeout
        (jsOr config.pollingTimeout DEFAULT_BATCH_TIMEOUT)))).foldl max 0

/-- The deadline the claim describes, in the specification's own words: the
maximum across trigger configs of that config's explicit timeout override if
present, otherwise the global default. -/
def claimedPollDeadline (globalDefault : Nat) (triggerConfigs : List TriggerConfig) : Nat :=
  (triggerConfigs.map (fun t =>
    t.testOverrides.pollingTimeout.getD globalDefault)).foldl max 0

/-! ### Errors and collaborator outcomes

Modelled from the spec: the `errors` module (`CiError`, `CriticalError`,
`BatchTimeoutRunawayError`) and `isForbiddenError` from the `api` module are
not among the sources.  Per the spec's error-handling design, a critical
error carries one of the fixed reason codes; the batch-timeout-runaway
condition is its own distinguished error; and a backend error either is or
is not a permission ("forbidden") error, which is what `isForbiddenError`
reports. -/

/-- Reason codes of `CiError` / `CriticalError` used by `executeTests`. -/
inductive Reason where
  | authorization_error
  | unavailable_test_config
  | no_tests_to_run
  | unavailable_tunnel_config
  | tunnel_start_failed
  | trigger_tests_failed
  | poll_results_failed
deriving DecidableEq, Repr

/-- The errors `executeTests` can raise. -/
inductive ExecError where
  | ciError (reason : Reason)
  | criticalError (reason : Reason) (message : String)
  | batchTimeoutRunaway
deriving DecidableEq, Repr

/-- An error surfaced by a backend call, with its permission flag
(`isForbiddenError`) and message. -/
structure BackendError where
  forbidden : Bool
  message : String
deriving DecidableEq, Repr

/-- Outcome of one awaited backend call. -/
inductive CallResult (α : Type) where
  | ok (a : α)
  | err (e : BackendError)
deriving DecidableEq, Repr

/-- A test as used by `executeTests` (only `public_id` participates). -/
structure Test where
  public_id : String
deriving DecidableEq, Repr

/-- `Trigger`: result of submitting the batch. -/
structure Trigger where
  batch_id : String
  selective_rerun_rate_limited : Bool := false
deriving DecidableEq, Repr

/-- Outcome of `getTestsToTrigger`: a success with the tests to run, a
`CiError` (rethrown as-is), or any other error. -/
inductive TestsToTriggerOutcome where
  | ok (tests : List Test)
  | ciErr (reason : Reason)
  | err (e : BackendError)
deriving DecidableEq, Repr

/-- Outcome of `waitForResults`: results, the distinguished
batch-timeout-runaway error, or any other error. -/
inductive PollOutcome where
  | ok (results : List String)
  | runaway
  | err (e : BackendError)
deriving DecidableEq, Repr

/-- Oracle for the awaited calls of one execution of `executeTests`. -/
structure ExecEnv where
  triggerConfigsResult : CallResult (List TriggerConfig)
  testsToTriggerResult : TestsToTriggerOutcome
  presignedUrlResult : CallResult String
  tunnelStartResult : CallResult Unit
  runTestsResult : CallResult Trigger
  waitForResultsResult : PollOutcome
deriving DecidableEq, Repr

/-- Observable side effects of one execution: whether the `tunnel` local was
ever assigned, whether `tunnel.start()` returned, how many times
`tunnel.stop()` ran, the messages sent to the reporter, and the batch
timeout handed to `waitForResults`. -/
structure ExecLog where
  tunnelCreated : Bool := false
  tunnelStarted : Bool := false
  stopCalls : Nat := 0
  reporterErrors : List String := []
  pollDeadline : Option Nat := none
deriving DecidableEq, Repr

/-- The message reported when selective rerun was rate-limited. -/
def rateLimitMessage : String :=
  "The selective re-run feature was rate-limited. All tests will be re-run.\n\n"

/-- The local `stopTunnel` helper: `if (tunnel) await tunnel.stop()` — a
no-op when the tunnel was never created. -/
def stopTunnel (log : ExecLog) : ExecLog :=
  if log.tunnelCreated then {log with stopCalls := log.stopCalls + 1} else log

/-- The result of a successful run (`results` plus the summary's batch id;
the summary counters do not participate in any claim). -/
structure RunOk where
  results : List String
  batchId : String
deriving DecidableEq, Repr

/-- The polling region of `executeTests` (the final `try / catch / finally`):
compute the effective deadline, poll, propagate `BatchTimeoutRunawayError`
unwrapped, wrap any other error as `POLL_RESULTS_FAILED`, and stop the
tunnel on every exit path (`finally`). -/
def execPollPhase (config : RunTestsConfig) (triggerConfigs : List TriggerConfig)
    (trigger : Trigger) (env : ExecEnv) (log : ExecLog) : Except ExecError RunOk × ExecLog :=
  let log := {log with pollDeadline := some (maxPollingTimeout config triggerConfigs)}
  match env.waitForResultsResult with
  | .ok results => (.ok {results := results, batchId := trigger.batch_id}, stopTunnel log)
  | .runaway => (.error .batchTimeoutRunaway, stopTunnel log)
  | .err e => (.error (.criticalError .poll_results_failed e.message), stopTunnel log)

/-- The trigger-submission region of `executeTests`: submit the batch, on
failure stop the tunnel and raise `TRIGGER_TESTS_FAILED`; on success report
the selective-rerun rate-limit warning when flagged, then poll. -/
def execTriggerPhase (config : RunTestsConfig) (triggerConfigs : List TriggerConfig)
    (env : ExecEnv) (log : ExecLog) : Except ExecError RunOk × ExecLog :=
  match env.runTestsResult with
  | .err e => (.error (.criticalError .trigger_tests_failed e.message), stopTunnel log)
  | .ok trigger =>
    let log :=
      if trigger.selective_rerun_rate_limited then
        {log with reporterErrors := log.reporterErrors ++ [rateLimitMessage]}
      else log
    execPollPhase config triggerConfigs trigger env log

/-- The tunnel region of `executeTests`: when `config.tunnel` is set, fetch
the presigned URL (failure → `UNAVAILABLE_TUNNEL_CONFIG`, with the `tunnel`
local still unassigned), create the tunnel, and start it (failure → stop
attempt, then `TUNNEL_START_FAILED`). -/
def execTunnelPhase (config : RunTestsConfig) (triggerConfigs : List TriggerConfig)
    (env : ExecEnv) (log : ExecLog) : Except ExecError RunOk × ExecLog :=
  if config.tunnel then
    match env.presignedUrlResult with
    | .err e => (.error (.criticalError .unavailable_tunnel_config e.message), log)
    | .ok _ =>
      let log := {log with tunnelCreated := true}
      match env.tunnelStartResult with
      | .err e => (.error (.criticalError .tunnel_start_failed e.message), stopTunnel log)
      | .ok _ => execTriggerPhase config triggerConfigs env {log with tunnelStarted := true}
  else execTriggerPhase config triggerConfigs env log

/-- Mirrors the control flow of `executeTests`: resolve trigger configs
(forbidden → `AUTHORIZATION_ERROR`, otherwise `UNAVAILABLE_TEST_CONFIG`),
reject empty runs, resolve the tests to trigger (a `CiError` is rethrown
unwrapped, a forbidden error → `AUTHORIZATION_ERROR`), then run the tunnel,
trigger and poll phases. -/
def executeTests (config0 : RunTestsConfig) (env : ExecEnv) : Except ExecError RunOk × ExecLog :=
  let config := {config0 with batchTimeout := replacePollingTimeoutWithBatchTimeout config0}
  match env.triggerConfigsResult with
  | .err e =>
    (.error (.criticalError
      (if e.forbidden then .authorization_error else .unavailable_test_config) e.message), {})
  | .ok triggerConfigs =>
    if triggerConfigs.length = 0 then (.error (.ciError .no_tests_to_run), {})
    else
      match env.testsToTriggerResult with
      | .ciErr r => (.error (.ciError r), {})
      | .err e =>
        (.error (.criticalError
          (if e.forbidden then .authorization_error else .unavailable_test_config) e.message), {})
      | .ok tests =>
        if tests.length = 0 then (.error (.ciError .no_tests_to_run), {})
        else execTunnelPhase config triggerConfigs env {}

/-! ## Theorems -/

/-! ### Trigger-config builder (claims C3 and C7) -/

theorem buildTriggerConfigs_map_id (defaults : UserConfigOverride) :
    ∀ (ids : List String) (search files : List SourceTestConfig),
      (buildTriggerConfigs defaults ids search files).map (·.id) = ids := by
  intro ids
  induction ids with
  | nil => intro search files; rfl
  | cons id ids ih => intro search files; simp [buildTriggerConfigs, ih]

theorem find?_three_lists (a b c : List String) :
    (([a, b, c].find? (fun ids => decide (0 < ids.length))).getD []) =
      selectFirstNonEmptySource a b c := by
  rcases a with _ | ⟨x, xs⟩ <;> rcases b with _ | ⟨y, ys⟩ <;> rcases c with _ | ⟨z, zs⟩ <;>
    simp [List.find?, selectFirstNonEmptySource]

/-- Claim C3: for every combination of the three test-id sources, the
trigger-config builder takes as the authoritative id list the first source,
in precedence order CLI ids, search-query results, test-config files, whose
id list is non-empty — never a union; in particular with CLI ids `[]`,
search-query ids `[A, B]` and test-config ids `[C]`, it selects `[A, B]`. -/
theorem claim_C3_first_non_empty_source :
    (∀ (defaults : UserConfigOverride) (cli : List String)
        (search files : List SourceTestConfig),
        (getTriggerConfigs defaults cli search files).map (·.id) =
          selectFirstNonEmptySource cli (search.map (·.id)) (files.map (·.id)))
    ∧ (getTriggerConfigs {} [] [⟨"A", none⟩, ⟨"B", none⟩] [⟨"C", none⟩]).map (·.id) =
        ["A", "B"] := by
  constructor
  · intro defaults cli search files
    rw [getTriggerConfigs, buildTriggerConfigs_map_id]
    exact find?_three_lists _ _ _
  · rfl

theorem findRemove_fst (id : String) (l : List SourceTestConfig) :
    (findRemove id l).1 = l.find? (fun t => decide (t.id = id)) := by
  induction l with
  | nil => rfl
  | cons t ts ih => by_cases h : t.id = id <;> simp [findRemove, List.find?, h, ih]

theorem findRemove_snd_find? (id id' : String) (l : List SourceTestConfig) (h : id ≠ id') :
    ((findRemove id' l).2).find? (fun t => decide (t.id = id)) =
      l.find? (fun t => decide (t.id = id)) := by
  have h' : id' ≠ id := Ne.symm h
  induction l with
  | nil => rfl
  | cons t ts ih =>
    by_cases ht : t.id = id' <;> by_cases htid : t.id = id <;>
      simp_all [findRemove, List.find?]

theorem buildTriggerConfigs_overrides (defaults : UserConfigOverride) :
    ∀ (ids : List String) (search files : List SourceTestConfig),
      ids.Nodup → ∀ cfg ∈ buildTriggerConfigs defaults ids search files,
      cfg.testOverrides =
        spreadMerge defaults
          (((files.find? (fun t => decide (t.id = cfg.id))).bind (·.testOverrides)).getD {}) := by
  intro ids
  induction ids with
  | nil => intro search files _ cfg hcfg; simp [buildTriggerConfigs] at hcfg
  | cons id ids ih =>
    intro search files hnd cfg hcfg
    rw [buildTriggerConfigs] at hcfg
    rcases List.mem_cons.mp hcfg with hhead | htail
    · subst hhead
      simp only [findRemove_fst]
    · have hmem : cfg.id ∈ ids := by
        have hmap := buildTriggerConfigs_map_id defaults ids
          (findRemove id search).2 (findRemove id files).2
        have h2 : cfg.id ∈ (buildTriggerConfigs defaults ids
            (findRemove id search).2 (findRemove id files).2).map (·.id) :=
          List.mem_map_of_mem (·.id) htail
        rwa [hmap] at h2
      have hne : cfg.id ≠ id := fun hc => (List.nodup_cons.mp hnd).1 (hc ▸ hmem)
      rw [ih _ _ (List.nodup_cons.mp hnd).2 cfg htail, findRemove_snd_find? _ _ _ hne]

/-- Claim C7: for every test id in the chosen id list (ids assumed pairwise
distinct, as a duplicated id would consume its spliced match), the resulting
`TriggerConfig`'s override set is the default overrides merged with the
per-test overrides of the matching test-config file entry, and for every key
present in both the per-test value wins. -/
theorem claim_C7_per_test_overrides_win
    (defaults : UserConfigOverride) (ids : List String)
    (search files : List SourceTestConfig) (cfg : TriggerConfig)
    (hnd : ids.Nodup)
    (hcfg : cfg ∈ buildTriggerConfigs defaults ids search files) :
    let per := ((files.find? (fun t => decide (t.id = cfg.id))).bind (·.testOverrides)).getD {}
    cfg.testOverrides.cookies = per.cookies.or defaults.cookies
    ∧ cfg.testOverrides.retry = per.retry.or defaults.retry
    ∧ cfg.testOverrides.basicAuth = per.basicAuth.or defaults.basicAuth
    ∧ cfg.testOverrides.allowInsecureCertificates =
        per.allowInsecureCertificates.or defaults.allowInsecureCertificates
    ∧ cfg.testOverrides.body = per.body.or defaults.body
    ∧ cfg.testOverrides.bodyType = per.bodyType.or defaults.bodyType
    ∧ cfg.testOverrides.defaultStepTimeout = per.defaultStepTimeout.or defaults.defaultStepTimeout
    ∧ cfg.testOverrides.deviceIds = per.deviceIds.or defaults.deviceIds
    ∧ cfg.testOverrides.executionRule = per.executionRule.or defaults.executionRule
    ∧ cfg.testOverrides.followRedirects = per.followRedirects.or defaults.followRedirects
    ∧ cfg.testOverrides.headers = per.headers.or defaults.headers
    ∧ cfg.testOverrides.locations = per.locations.or defaults.locations
    ∧ cfg.testOverrides.pollingTimeout = per.pollingTimeout.or defaults.pollingTimeout
    ∧ cfg.testOverrides.resourceUrlSubstitutionRegexes =
        per.resourceUrlSubstitutionRegexes.or defaults.resourceUrlSubstitutionRegexes
    ∧ cfg.testOverrides.startUrl = per.startUrl.or defaults.startUrl
    ∧ cfg.testOverrides.startUrlSubstitutionRegex =
        per.startUrlSubstitutionRegex.or defaults.startUrlSubstitutionRegex
    ∧ cfg.testOverrides.testTimeout = per.testTimeout.or defaults.testTimeout
    ∧ cfg.testOverrides.«variables» = per.«variables».or defaults.«variables»
    ∧ cfg.testOverrides.mobileApplicationVersion =
        per.mobileApplicationVersion.or defaults.mobileApplicationVersion
    ∧ cfg.testOverrides.mobileApplicationVersionFilePath =
        per.mobileApplicationVersionFilePath.or defaults.mobileApplicationVersionFilePath
    ∧ cfg.testOverrides.tunnel = per.tunnel.or defaults.tunnel := by
  intro per
  rw [buildTriggerConfigs_overrides defaults ids search files hnd cfg hcfg]
  simp [spreadMerge]

/-- Witness for claim C7 at a concrete input: one id matching one test-config
entry whose override of `body` beats the default, while the default `startUrl`
survives. -/
theorem claim_C7_witness :
    (⟨"C", {body := some "per", startUrl := some "u0"}⟩ : TriggerConfig) ∈
      buildTriggerConfigs {body := some "dflt", startUrl := some "u0"} ["C"] []
        [⟨"C", some {body := some "per"}⟩]
    ∧ (⟨"C", {body := some "per", startUrl := some "u0"}⟩ : TriggerConfig).testOverrides.body =
        some "per"
    ∧ (⟨"C", {body := some "per", startUrl := some "u0"}⟩ : TriggerConfig).testOverrides.startUrl =
        some "u0" := by
  have h := claim_C7_per_test_overrides_win
    {body := some "dflt", startUrl := some "u0"} ["C"] []
    [⟨"C", some {body := some "per"}⟩]
    ⟨"C", {body := some "per", startUrl := some "u0"}⟩
    (by decide) (by decide)
  refine ⟨by decide, ?_, ?_⟩
  · have hb := h.2.2.2.2.1
    simp only [List.find?] at hb
    exact hb
  · have hs := h.2.2.2.2.2.2.2.2.2.2.2.2.2.2.1
    simp only [List.find?] at hs
    exact hs

/-! ### The effective poll deadline (claim C1) -/

theorem foldl_max_map_const {α : Type} (g : Nat) :
    ∀ (l : List α) (a : α) (acc : Nat),
      ((a :: l).map (fun _ => g)).foldl max acc = max acc g := by
  intro l
  induction l with
  | nil => intro a acc; rfl
  | cons b l ih =>
    intro a acc
    simp only [List.map, List.foldl]
    have := ih b (max acc g)
    simp only [List.map, List.foldl] at this
    rw [this, Nat.max_assoc, Nat.max_self]

/-! Projections of `stopTunnel`. -/

theorem stopTunnel_pollDeadline (log : ExecLog) :
    (stopTunnel log).pollDeadline = log.pollDeadline := by
  unfold stopTunnel; split <;> rfl

theorem stopTunnel_reporterErrors (log : ExecLog) :
    (stopTunnel log).reporterErrors = log.reporterErrors := by
  unfold stopTunnel; split <;> rfl

theorem stopTunnel_tunnelStarted (log : ExecLog) :
    (stopTunnel log).tunnelStarted = log.tunnelStarted := by
  unfold stopTunnel; split <;> rfl

theorem stopTunnel_stopCalls (log : ExecLog) :
    (stopTunnel log).stopCalls =
      if log.tunnelCreated then log.stopCalls + 1 else log.stopCalls := by
  unfold stopTunnel; split <;> rfl

/-! Log-shape lemmas for the three phases of `executeTests`. -/

theorem execPollPhase_snd (c : RunTestsConfig) (cs : List TriggerConfig) (tr : Trigger)
    (env : ExecEnv) (log : ExecLog) :
    (execPollPhase c cs tr env log).2 =
      stopTunnel {log with pollDeadline := some (maxPollingTimeout c cs)} := by
  unfold execPollPhase
  cases env.waitForResultsResult <;> rfl

theorem execPollPhase_fst (c : RunTestsConfig) (cs : List TriggerConfig) (tr : Trigger)
    (env : ExecEnv) (log : ExecLog) :
    (execPollPhase c cs tr env log).1 =
      match env.waitForResultsResult with
      | .ok results => .ok {results := results, batchId := tr.batch_id}
      | .runaway => .error .batchTimeoutRunaway
      | .err e => .error (.criticalError .poll_results_failed e.message) := by
  unfold execPollPhase
  cases env.waitForResultsResult <;> rfl

theorem execTriggerPhase_fst_log_indep (c : RunTestsConfig) (cs : List TriggerConfig)
    (env : ExecEnv) (log log' : ExecLog) :
    (execTriggerPhase c cs env log).1 = (execTriggerPhase c cs env log').1 := by
  unfold execTriggerPhase
  cases env.runTestsResult with
  | err e => rfl
  | ok tr => rw [execPollPhase_fst, execPollPhase_fst]

theorem execTriggerPhase_snd_of_err (c : RunTestsConfig) (cs : List TriggerConfig)
    (env : ExecEnv) (log : ExecLog) (e : BackendError)
    (h : env.runTestsResult = .err e) :
    (execTriggerPhase c cs env log).2 = stopTunnel log := by
  simp only [execTriggerPhase, h]

theorem execTriggerPhase_snd_of_ok (c : RunTestsConfig) (cs : List TriggerConfig)
    (env : ExecEnv) (log : ExecLog) (tr : Trigger)
    (h : env.runTestsResult = .ok tr) :
    (execTriggerPhase c cs env log).2 =
      stopTunnel {log with
        reporterErrors :=
          if tr.selective_rerun_rate_limited then log.reporterErrors ++ [rateLimitMessage]
          else log.reporterErrors,
        pollDeadline := some (maxPollingTimeout c cs)} := by
  simp only [execTriggerPhase, h]
  rw [execPollPhase_snd]
  split <;> rfl

/-- Under the hypotheses that make `executeTests` get past test resolution
and the tunnel section, the run is the trigger phase started from the log the
tunnel section produced. -/
theorem executeTests_reach (cfg : RunTestsConfig) (env : ExecEnv) (cs : List TriggerConfig)
    (tests : List Test)
    (h1 : env.triggerConfigsResult = .ok cs) (h2 : cs.length ≠ 0)
    (h3 : env.testsToTriggerResult = .ok tests) (h4 : tests.length ≠ 0)
    (h5 : cfg.tunnel = false ∨
      ((∃ u, env.presignedUrlResult = .ok u) ∧ env.tunnelStartResult = .ok ())) :
    ∃ log : ExecLog,
      executeTests cfg env =
        execTriggerPhase {cfg with batchTimeout := replacePollingTimeoutWithBatchTimeout cfg}
          cs env log := by
  rcases h5 with h5 | ⟨⟨u, hu⟩, hts⟩
  · exact ⟨{}, by simp [executeTests, h1, h2, h3, h4, execTunnelPhase, h5]⟩
  · rcases hct : cfg.tunnel with _ | _
    · exact ⟨{}, by simp [executeTests, h1, h2, h3, h4, execTunnelPhase, hct]⟩
    · exact ⟨{tunnelCreated := true, tunnelStarted := true}, by
        simp [executeTests, h1, h2, h3, h4, execTunnelPhase, hct, hu, hts]⟩

/-- Claim C1 counterexample: with a global batch timeout of 1000 set and a
single trigger config carrying an explicit per-test timeout override of 2000,
the code's effective deadline is the global 1000 — per-test overrides are
ignored as soon as a global batch timeout is set — while the claimed
"override if present, otherwise the global default" formula gives 2000, and
that deadline 1000 is what `executeTests` hands to the poller. -/
theorem claim_C1_counterexample :
    maxPollingTimeout {batchTimeout := some 1000}
        [⟨"t1", {pollingTimeout := some 2000}⟩] = 1000
    ∧ claimedPollDeadline DEFAULT_BATCH_TIMEOUT
        [⟨"t1", {pollingTimeout := some 2000}⟩] = 2000
    ∧ (1000 : Nat) ≠ 2000
    ∧ (executeTests {batchTimeout := some 1000}
        { triggerConfigsResult := .ok [⟨"t1", {pollingTimeout := some 2000}⟩]
          testsToTriggerResult := .ok [⟨"t1"⟩]
          presignedUrlResult := .ok "url"
          tunnelStartResult := .ok ()
          runTestsResult := .ok {batch_id := "b"}
          waitForResultsResult := .ok [] }).2.pollDeadline = some 1000 := by
  refine ⟨rfl, rfl, by decide, rfl⟩

/-- Claim C1, amended: the effective poll deadline is the maximum, across all
trigger configs, of `config.batchTimeout || override || config.pollingTimeout
|| DEFAULT_BATCH_TIMEOUT` — so only when no global batch/polling timeout is
set does it equal the maximum of "per-config override if present, otherwise
the default"; a (non-zero) global batch timeout is used for every config and
per-test overrides are ignored.  The 60/120 example of the claim, having no
global override, still holds, and the computed deadline is what
`executeTests` passes to the poller. -/
theorem claim_C1_amended :
    (∀ (cs : List TriggerConfig), cs ≠ [] →
        (∀ t ∈ cs, t.testOverrides.pollingTimeout ≠ some 0) →
        maxPollingTimeout {batchTimeout := none, pollingTimeout := none, tunnel := false} cs =
          claimedPollDeadline DEFAULT_BATCH_TIMEOUT cs)
    ∧ (∀ (cfg : RunTestsConfig) (g : Nat) (cs : List TriggerConfig),
        cfg.batchTimeout = some g → g ≠ 0 → cs ≠ [] →
        maxPollingTimeout cfg cs = g)
    ∧ maxPollingTimeout {batchTimeout := none, pollingTimeout := none, tunnel := false}
        [⟨"t1", {pollingTimeout := some 60000}⟩, ⟨"t2", {pollingTimeout := some 120000}⟩] =
        120000
    ∧ (∀ (cfg : RunTestsConfig) (env : ExecEnv) (cs : List TriggerConfig)
         (tests : List Test) (trigger : Trigger),
        env.triggerConfigsResult = .ok cs → cs.length ≠ 0 →
        env.testsToTriggerResult = .ok tests → tests.length ≠ 0 →
        (cfg.tunnel = false ∨
          ((∃ u, env.presignedUrlResult = .ok u) ∧ env.tunnelStartResult = .ok ())) →
        env.runTestsResult = .ok trigger →
        (executeTests cfg env).2.pollDeadline =
          some (maxPollingTimeout
            {cfg with batchTimeout := replacePollingTimeoutWithBatchTimeout cfg} cs)) := by
  refine ⟨?_, ?_, rfl, ?_⟩
  · intro cs _ hnz
    unfold maxPollingTimeout claimedPollDeadline
    congr 1
    refine List.map_congr_left ?_
    intro t ht
    rcases hpt : t.testOverrides.pollingTimeout with _ | v
    · simp [jsOr, hpt]
    · have : v ≠ 0 := fun h0 => hnz t ht (by rw [hpt, h0])
      simp [jsOr, hpt, this]
  · intro cfg g cs hbt hg hne
    unfold maxPollingTimeout
    have hmap : cs.map (fun t =>
        jsOr cfg.batchTimeout
          (jsOr t.testOverrides.pollingTimeout
            (jsOr cfg.pollingTimeout DEFAULT_BATCH_TIMEOUT))) = cs.map (fun _ => g) := by
      refine List.map_congr_left ?_
      intro t _
      simp [jsOr, hbt, hg]
    rcases cs with _ | ⟨c, cs⟩
    · exact absurd rfl hne
    · rw [hmap, foldl_max_map_const, Nat.zero_max]
  · intro cfg env cs tests trigger h1 h2 h3 h4 h5 h6
    obtain ⟨log, hlog⟩ := executeTests_reach cfg env cs tests h1 h2 h3 h4 h5
    rw [hlog, execTriggerPhase_snd_of_ok _ _ _ _ _ h6, stopTunnel_pollDeadline]

/-- Witness for the amended claim C1, applying each quantified conjunct at a
concrete input. -/
theorem claim_C1_amended_witness :
    maxPollingTimeout {batchTimeout := none, pollingTimeout := none, tunnel := false}
        [⟨"t1", {pollingTimeout := some 60000}⟩] =
      claimedPollDeadline DEFAULT_BATCH_TIMEOUT [⟨"t1", {pollingTimeout := some 60000}⟩]
    ∧ maxPollingTimeout {batchTimeout := some 1000}
        [⟨"t1", {pollingTimeout := some 2000}⟩] = 1000
    ∧ (executeTests {batchTimeout := none}
        { triggerConfigsResult := .ok [⟨"t1", {pollingTimeout := some 60000}⟩]
          testsToTriggerResult := .ok [⟨"t1"⟩]
          presignedUrlResult := .ok "url"
          tunnelStartResult := .ok ()
          runTestsResult := .ok {batch_id := "b"}
          waitForResultsResult := .ok [] }).2.pollDeadline = some 60000 := by
  refine ⟨claim_C1_amended.1 _ (by decide) (by decide),
    claim_C1_amended.2.1 _ 1000 _ rfl (by decide) (by decide), ?_⟩
  have h := claim_C1_amended.2.2.2 {batchTimeout := none}
    { triggerConfigsResult := .ok [⟨"t1", {pollingTimeout := some 60000}⟩]
      testsToTriggerResult := .ok [⟨"t1"⟩]
      presignedUrlResult := .ok "url"
      tunnelStartResult := .ok ()
      runTestsResult := .ok {batch_id := "b"}
      waitForResultsResult := .ok [] }
    [⟨"t1", {pollingTimeout := some 60000}⟩] [⟨"t1"⟩] {batch_id := "b"}
    rfl (by decide) rfl (by decide) (Or.inl rfl) rfl
  simpa using h

/-! ### Tunnel lifecycle (claim C2) -/

theorem execTriggerPhase_snd_tunnelStarted (c : RunTestsConfig) (cs : List TriggerConfig)
    (env : ExecEnv) (log : ExecLog) :
    (execTriggerPhase c cs env log).2.tunnelStarted = log.tunnelStarted := by
  cases hr : env.runTestsResult with
  | err e => rw [execTriggerPhase_snd_of_err _ _ _ _ _ hr, stopTunnel_tunnelStarted]
  | ok tr => rw [execTriggerPhase_snd_of_ok _ _ _ _ _ hr, stopTunnel_tunnelStarted]

theorem execTriggerPhase_snd_stopCalls (c : RunTestsConfig) (cs : List TriggerConfig)
    (env : ExecEnv) (log : ExecLog) :
    (execTriggerPhase c cs env log).2.stopCalls =
      if log.tunnelCreated then log.stopCalls + 1 else log.stopCalls := by
  cases hr : env.runTestsResult with
  | err e => rw [execTriggerPhase_snd_of_err _ _ _ _ _ hr, stopTunnel_stopCalls]
  | ok tr => rw [execTriggerPhase_snd_of_ok _ _ _ _ _ hr, stopTunnel_stopCalls]

/-- Claim C2: in every execution in which the tunnel was started, the tunnel
stop step runs exactly once, whatever the exit path (success, trigger
failure, poll failure or poll timeout); and the stop step is a no-op, not an
error, when the tunnel was never started. -/
theorem claim_C2_tunnel_stop_exactly_once :
    (∀ (cfg : RunTestsConfig) (env : ExecEnv),
        (executeTests cfg env).2.tunnelStarted = true →
        (executeTests cfg env).2.stopCalls = 1)
    ∧ (∀ log : ExecLog, log.tunnelCreated = false → stopTunnel log = log) := by
  constructor
  · intro cfg env
    obtain ⟨tcr, ttr, pur, tsr, rtr, wfr⟩ := env
    cases tcr with
    | err e => intro h; simp [executeTests] at h
    | ok cs =>
      by_cases h2 : cs.length = 0
      · intro h; simp [executeTests, h2] at h
      · cases ttr with
        | ciErr r => intro h; simp [executeTests, h2] at h
        | err e => intro h; simp [executeTests, h2] at h
        | ok tests =>
          by_cases h4 : tests.length = 0
          · intro h; simp [executeTests, h2, h4] at h
          · by_cases ht : cfg.tunnel = true
            · cases pur with
              | err e => intro h; simp [executeTests, execTunnelPhase, h2, h4, ht] at h
              | ok u =>
                cases tsr with
                | err e =>
                  intro h
                  simp [executeTests, execTunnelPhase, h2, h4, ht, stopTunnel] at h
                | ok _ =>
                  intro h
                  simp [executeTests, execTunnelPhase, h2, h4, ht,
                    execTriggerPhase_snd_stopCalls]
            · intro h
              simp [executeTests, execTunnelPhase, h2, h4, ht,
                execTriggerPhase_snd_tunnelStarted] at h
  · intro log hlog
    unfold stopTunnel
    rw [hlog]
    simp

/-- Witness for claim C2: a run with the tunnel enabled and every call
succeeding starts the tunnel and stops it exactly once, and a stop on a log
without a created tunnel changes nothing. -/
theorem claim_C2_witness :
    (executeTests {tunnel := true}
        { triggerConfigsResult := .ok [⟨"t1", {}⟩]
          testsToTriggerResult := .ok [⟨"t1"⟩]
          presignedUrlResult := .ok "url"
          tunnelStartResult := .ok ()
          runTestsResult := .ok {batch_id := "b"}
          waitForResultsResult := .ok ["r"] }).2.tunnelStarted = true
    ∧ (executeTests {tunnel := true}
        { triggerConfigsResult := .ok [⟨"t1", {}⟩]
          testsToTriggerResult := .ok [⟨"t1"⟩]
          presignedUrlResult := .ok "url"
          tunnelStartResult := .ok ()
          runTestsResult := .ok {batch_id := "b"}
          waitForResultsResult := .ok ["r"] }).2.stopCalls = 1
    ∧ stopTunnel {} = ({} : ExecLog) := by
  refine ⟨by decide, ?_, claim_C2_tunnel_stop_exactly_once.2 {} rfl⟩
  exact claim_C2_tunnel_stop_exactly_once.1 _ _ (by decide)

/-! ### Error normalization (claims C4 and C5) -/

theorem execTriggerPhase_fst_of_err (c : RunTestsConfig) (cs : List TriggerConfig)
    (env : ExecEnv) (log : ExecLog) (e : BackendError)
    (h : env.runTestsResult = .err e) :
    (execTriggerPhase c cs env log).1 =
      .error (.criticalError .trigger_tests_failed e.message) := by
  simp only [execTriggerPhase, h]

theorem execTriggerPhase_fst_of_ok (c : RunTestsConfig) (cs : List TriggerConfig)
    (env : ExecEnv) (log : ExecLog) (tr : Trigger)
    (h : env.runTestsResult = .ok tr) :
    (execTriggerPhase c cs env log).1 =
      match env.waitForResultsResult with
      | .ok results => .ok {results := results, batchId := tr.batch_id}
      | .runaway => .error .batchTimeoutRunaway
      | .err e => .error (.criticalError .poll_results_failed e.message) := by
  simp only [execTriggerPhase, h]
  rw [execPollPhase_fst]

/-- Claim C4 counterexample: a forbidden (permission) error from the tunnel
presigned-URL request is not normalized to `AUTHORIZATION_ERROR`; it surfaces
as `UNAVAILABLE_TUNNEL_CONFIG`. -/
theorem claim_C4_counterexample :
    (executeTests {tunnel := true}
      { triggerConfigsResult := .ok [⟨"t1", {}⟩]
        testsToTriggerResult := .ok [⟨"t1"⟩]
        presignedUrlResult := .err ⟨true, "forbidden"⟩
        tunnelStartResult := .ok ()
        runTestsResult := .ok {batch_id := "b"}
        waitForResultsResult := .ok [] }).1 =
      .error (.criticalError .unavailable_tunnel_config "forbidden")
    ∧ Reason.unavailable_tunnel_config ≠ Reason.authorization_error := by
  exact ⟨rfl, by decide⟩

/-- Claim C4, amended: forbidden (permission) errors are normalized to
`AUTHORIZATION_ERROR` only for the test-config fetch and the test lookup;
errors of the tunnel presigned-URL request, the trigger submission and the
polling — permission errors included — surface under those calls' own reason
codes (`UNAVAILABLE_TUNNEL_CONFIG`, `TRIGGER_TESTS_FAILED`,
`POLL_RESULTS_FAILED`). -/
theorem claim_C4_amended :
    (∀ (cfg : RunTestsConfig) (env : ExecEnv) (e : BackendError),
        env.triggerConfigsResult = .err e → e.forbidden = true →
        (executeTests cfg env).1 = .error (.criticalError .authorization_error e.message))
    ∧ (∀ (cfg : RunTestsConfig) (env : ExecEnv) (cs : List TriggerConfig) (e : BackendError),
        env.triggerConfigsResult = .ok cs → cs.length ≠ 0 →
        env.testsToTriggerResult = .err e → e.forbidden = true →
        (executeTests cfg env).1 = .error (.criticalError .authorization_error e.message))
    ∧ (∀ (cfg : RunTestsConfig) (env : ExecEnv) (cs : List TriggerConfig)
         (tests : List Test) (e : BackendError),
        env.triggerConfigsResult = .ok cs → cs.length ≠ 0 →
        env.testsToTriggerResult = .ok tests → tests.length ≠ 0 →
        cfg.tunnel = true → env.presignedUrlResult = .err e →
        (executeTests cfg env).1 = .error (.criticalError .unavailable_tunnel_config e.message))
    ∧ (∀ (cfg : RunTestsConfig) (env : ExecEnv) (cs : List TriggerConfig)
         (tests : List Test) (e : BackendError),
        env.triggerConfigsResult = .ok cs → cs.length ≠ 0 →
        env.testsToTriggerResult = .ok tests → tests.length ≠ 0 →
        (cfg.tunnel = false ∨
          ((∃ u, env.presignedUrlResult = .ok u) ∧ env.tunnelStartResult = .ok ())) →
        env.runTestsResult = .err e →
        (executeTests cfg env).1 = .error (.criticalError .trigger_tests_failed e.message))
    ∧ (∀ (cfg : RunTestsConfig) (env : ExecEnv) (cs : List TriggerConfig)
         (tests : List Test) (trigger : Trigger) (e : BackendError),
        env.triggerConfigsResult = .ok cs → cs.length ≠ 0 →
        env.testsToTriggerResult = .ok tests → tests.length ≠ 0 →
        (cfg.tunnel = false ∨
          ((∃ u, env.presignedUrlResult = .ok u) ∧ env.tunnelStartResult = .ok ())) →
        env.runTestsResult = .ok trigger →
        env.waitForResultsResult = .err e →
        (executeTests cfg env).1 = .error (.criticalError .poll_results_failed e.message)) := by
  refine ⟨?_, ?_, ?_, ?_, ?_⟩
  · intro cfg env e h hf
    simp [executeTests, h, hf]
  · intro cfg env cs e h1 h2 h3 hf
    simp [executeTests, h1, h2, h3, hf]
  · intro cfg env cs tests e h1 h2 h3 h4 ht hp
    simp [executeTests, execTunnelPhase, h1, h2, h3, h4, ht, hp]
  · intro cfg env cs tests e h1 h2 h3 h4 h5 h6
    obtain ⟨log, hlog⟩ := executeTests_reach cfg env cs tests h1 h2 h3 h4 h5
    rw [hlog, execTriggerPhase_fst_of_err _ _ _ _ _ h6]
  · intro cfg env cs tests trigger e h1 h2 h3 h4 h5 h6 h7
    obtain ⟨log, hlog⟩ := executeTests_reach cfg env cs tests h1 h2 h3 h4 h5
    rw [hlog, execTriggerPhase_fst_of_ok _ _ _ _ _ h6, h7]

/-- Witness for the amended claim C4, applying the normalized conjunct (a
forbidden test-config fetch failure) and the non-normalized conjunct (a
forbidden trigger-submission failure) at concrete inputs. -/
theorem claim_C4_amended_witness :
    (executeTests {}
      { triggerConfigsResult := .err ⟨true, "denied"⟩
        testsToTriggerResult := .ok [⟨"t1"⟩]
        presignedUrlResult := .ok "url"
        tunnelStartResult := .ok ()
        runTestsResult := .ok {batch_id := "b"}
        waitForResultsResult := .ok [] }).1 =
      .error (.criticalError .authorization_error "denied")
    ∧ (executeTests {}
      { triggerConfigsResult := .ok [⟨"t1", {}⟩]
        testsToTriggerResult := .ok [⟨"t1"⟩]
        presignedUrlResult := .ok "url"
        tunnelStartResult := .ok ()
        runTestsResult := .err ⟨true, "denied"⟩
        waitForResultsResult := .ok [] }).1 =
      .error (.criticalError .trigger_tests_failed "denied") := by
  constructor
  · exact claim_C4_amended.1 _ _ ⟨true, "denied"⟩ rfl rfl
  · exact claim_C4_amended.2.2.2.1 _ _ [⟨"t1", {}⟩] [⟨"t1"⟩] ⟨true, "denied"⟩
      rfl (by decide) rfl (by decide) (Or.inl rfl) rfl

/-- Claim C5: when polling exceeds the deadline the distinguished
batch-timeout-runaway error propagates unwrapped, while every other polling
error is wrapped as a critical error with reason `POLL_RESULTS_FAILED`, and
the two outcomes are distinguishable. -/
theorem claim_C5_timeout_error_distinguished :
    (∀ (cfg : RunTestsConfig) (env : ExecEnv) (cs : List TriggerConfig)
        (tests : List Test) (trigger : Trigger),
        env.triggerConfigsResult = .ok cs → cs.length ≠ 0 →
        env.testsToTriggerResult = .ok tests → tests.length ≠ 0 →
        (cfg.tunnel = false ∨
          ((∃ u, env.presignedUrlResult = .ok u) ∧ env.tunnelStartResult = .ok ())) →
        env.runTestsResult = .ok trigger →
        env.waitForResultsResult = .runaway →
        (executeTests cfg env).1 = .error .batchTimeoutRunaway)
    ∧ (∀ (cfg : RunTestsConfig) (env : ExecEnv) (cs : List TriggerConfig)
        (tests : List Test) (trigger : Trigger) (e : BackendError),
        env.triggerConfigsResult = .ok cs → cs.length ≠ 0 →
        env.testsToTriggerResult = .ok tests → tests.length ≠ 0 →
        (cfg.tunnel = false ∨
          ((∃ u, env.presignedUrlResult = .ok u) ∧ env.tunnelStartResult = .ok ())) →
        env.runTestsResult = .ok trigger →
        env.waitForResultsResult = .err e →
        (executeTests cfg env).1 = .error (.criticalError .poll_results_failed e.message))
    ∧ (∀ (r : Reason) (m : String),
        (ExecError.batchTimeoutRunaway : ExecError) ≠ .criticalError r m) := by
  refine ⟨?_, ?_, ?_⟩
  · intro cfg env cs tests trigger h1 h2 h3 h4 h5 h6 h7
    obtain ⟨log, hlog⟩ := executeTests_reach cfg env cs tests h1 h2 h3 h4 h5
    rw [hlog, execTriggerPhase_fst_of_ok _ _ _ _ _ h6, h7]
  · intro cfg env cs tests trigger e h1 h2 h3 h4 h5 h6 h7
    obtain ⟨log, hlog⟩ := executeTests_reach cfg env cs tests h1 h2 h3 h4 h5
    rw [hlog, execTriggerPhase_fst_of_ok _ _ _ _ _ h6, h7]
  · intro r m h
    exact ExecError.noConfusion h

/-- Witness for claim C5: a concrete run whose poll times out propagates the
runaway error unwrapped, and one whose poll fails is wrapped with
`POLL_RESULTS_FAILED`. -/
theorem claim_C5_witness :
    (executeTests {}
      { triggerConfigsResult := .ok [⟨"t1", {}⟩]
        testsToTriggerResult := .ok [⟨"t1"⟩]
        presignedUrlResult := .ok "url"
        tunnelStartResult := .ok ()
        runTestsResult := .ok {batch_id := "b"}
        waitForResultsResult := .runaway }).1 = .error .batchTimeoutRunaway
    ∧ (executeTests {}
      { triggerConfigsResult := .ok [⟨"t1", {}⟩]
        testsToTriggerResult := .ok [⟨"t1"⟩]
        presignedUrlResult := .ok "url"
        tunnelStartResult := .ok ()
        runTestsResult := .ok {batch_id := "b"}
        waitForResultsResult := .err ⟨false, "net"⟩ }).1 =
      .error (.criticalError .poll_results_failed "net")
    ∧ (ExecError.batchTimeoutRunaway : ExecError) ≠
        .criticalError .poll_results_failed "net" := by
  refine ⟨?_, ?_, claim_C5_timeout_error_distinguished.2.2 _ _⟩
  · exact claim_C5_timeout_error_distinguished.1 _ _ [⟨"t1", {}⟩] [⟨"t1"⟩] {batch_id := "b"}
      rfl (by decide) rfl (by decide) (Or.inl rfl) rfl rfl
  · exact claim_C5_timeout_error_distinguished.2.1 _ _ [⟨"t1", {}⟩] [⟨"t1"⟩]
      {batch_id := "b"} ⟨false, "net"⟩ rfl (by decide) rfl (by decide) (Or.inl rfl) rfl rfl

/-! ### Selective-rerun rate limiting (claim C8) -/

/-- Claim C8: when the trigger response reports that selective rerun was
rate-limited, the condition is surfaced to the reporter and the run proceeds
— its outcome is exactly the outcome it would have had without the flag, not
an error aborting the run. -/
theorem claim_C8_selective_rerun_rate_limited
    (cfg : RunTestsConfig) (env : ExecEnv) (cs : List TriggerConfig)
    (tests : List Test) (trigger : Trigger)
    (h1 : env.triggerConfigsResult = .ok cs) (h2 : cs.length ≠ 0)
    (h3 : env.testsToTriggerResult = .ok tests) (h4 : tests.length ≠ 0)
    (h5 : cfg.tunnel = false ∨
      ((∃ u, env.presignedUrlResult = .ok u) ∧ env.tunnelStartResult = .ok ()))
    (h6 : env.runTestsResult = .ok trigger)
    (h7 : trigger.selective_rerun_rate_limited = true) :
    rateLimitMessage ∈ (executeTests cfg env).2.reporterErrors
    ∧ (executeTests cfg env).1 =
        (executeTests cfg
          {env with
            runTestsResult := .ok ({trigger with selective_rerun_rate_limited := false})}).1 := by
  obtain ⟨log, hlog⟩ := executeTests_reach cfg env cs tests h1 h2 h3 h4 h5
  constructor
  · rw [hlog, execTriggerPhase_snd_of_ok _ _ _ _ _ h6, stopTunnel_reporterErrors]
    simp [h7]
  · obtain ⟨log', hlog'⟩ := executeTests_reach cfg
      {env with runTestsResult := .ok ({trigger with selective_rerun_rate_limited := false})}
      cs tests h1 h2 h3 h4 h5
    rw [hlog, hlog', execTriggerPhase_fst_of_ok _ _ _ _ _ h6,
      execTriggerPhase_fst_of_ok _ _ _ _
        ({trigger with selective_rerun_rate_limited := false}) rfl]

/-- Witness for claim C8: a concrete rate-limited run reports the warning
and still returns the poll results. -/
theorem claim_C8_witness :
    rateLimitMessage ∈ (executeTests {}
      { triggerConfigsResult := .ok [⟨"t1", {}⟩]
        testsToTriggerResult := .ok [⟨"t1"⟩]
        presignedUrlResult := .ok "url"
        tunnelStartResult := .ok ()
        runTestsResult := .ok {batch_id := "b", selective_rerun_rate_limited := true}
        waitForResultsResult := .ok ["r"] }).2.reporterErrors
    ∧ (executeTests {}
      { triggerConfigsResult := .ok [⟨"t1", {}⟩]
        testsToTriggerResult := .ok [⟨"t1"⟩]
        presignedUrlResult := .ok "url"
        tunnelStartResult := .ok ()
        runTestsResult := .ok {batch_id := "b", selective_rerun_rate_limited := true}
        waitForResultsResult := .ok ["r"] }).1 = .ok {results := ["r"], batchId := "b"} := by
  have h := claim_C8_selective_rerun_rate_limited {}
    { triggerConfigsResult := .ok [⟨"t1", {}⟩]
      testsToTriggerResult := .ok [⟨"t1"⟩]
      presignedUrlResult := .ok "url"
      tunnelStartResult := .ok ()
      runTestsResult := .ok {batch_id := "b", selective_rerun_rate_limited := true}
      waitForResultsResult := .ok ["r"] }
    [⟨"t1", {}⟩] [⟨"t1"⟩] {batch_id := "b", selective_rerun_rate_limited := true}
    rfl (by decide) rfl (by decide) (Or.inl rfl) rfl rfl
  exact ⟨h.1, by rw [h.2]; rfl⟩

/-! ### Override resolver errors (claims C6, C9, C10) -/

theorem parseOverride_unknown_key (acc : Accumulator) (s : String)
    (hk : overrideKeyOf s ∉ allOverrideKeys) :
    parseOverride acc s =
      .error (if levenshtein (closestKey (overrideKeyOf s)) (overrideKeyOf s) > 5
              then .invalidKey (overrideKeyOf s)
              else .invalidKeyWithSuggestion (overrideKeyOf s) (closestKey (overrideKeyOf s))) := by
  simp only [allOverrideKeys, List.mem_cons, List.not_mem_nil, or_false, not_or] at hk
  obtain ⟨hck, hrt, hba, haic, hbo, hbt, hdst, hdi, her, hfr, hhe, hlo, hpt, hru, hsu,
    hsur, htt, hva⟩ := hk
  unfold parseOverride
  simp only [if_neg hdst, if_neg hpt, if_neg htt, if_neg haic, if_neg hfr, if_neg hbo,
    if_neg hbt, if_neg hsu, if_neg hsur, if_neg hdi, if_neg hlo, if_neg hru, if_neg her,
    if_neg hrt, if_neg hba, if_neg hck, if_neg hhe, if_neg hva]
  split_ifs <;> rfl

/-- Claim C6: for every override string whose top-level key is not in the
allow-list, the resolver fails naming the closest valid key when the edit
distance between the given key and that closest key is at most 5, and with a
generic invalid-key error when it exceeds 5. -/
theorem claim_C6_unknown_key_suggestion (s : String)
    (hk : overrideKeyOf s ∉ allOverrideKeys) :
    validateAndParseOverrides (some [s]) =
      .error (if levenshtein (closestKey (overrideKeyOf s)) (overrideKeyOf s) ≤ 5
              then .invalidKeyWithSuggestion (overrideKeyOf s) (closestKey (overrideKeyOf s))
              else .invalidKey (overrideKeyOf s)) := by
  have h := parseOverride_unknown_key {} s hk
  simp only [validateAndParseOverrides, List.foldlM]
  rw [h]
  by_cases hc : levenshtein (closestKey (overrideKeyOf s)) (overrideKeyOf s) ≤ 5
  · rw [if_pos hc,
      if_neg (show ¬levenshtein (closestKey (overrideKeyOf s)) (overrideKeyOf s) > 5 by omega)]
    rfl
  · rw [if_neg hc,
      if_pos (show levenshtein (closestKey (overrideKeyOf s)) (overrideKeyOf s) > 5 by omega)]
    rfl

set_option maxRecDepth 200000 in
/-- Witness for claim C6: a near-miss key gets the suggestion, a garbage key
far from every valid key gets the generic error. -/
theorem claim_C6_witness :
    validateAndParseOverrides (some ["pollingTimeoutt=60"]) =
      .error (.invalidKeyWithSuggestion "pollingTimeoutt" "pollingTimeout")
    ∧ validateAndParseOverrides (some ["zzzzzzzzzzzzzzzzzzzzzzzzzzzzzz=1"]) =
      .error (.invalidKey "zzzzzzzzzzzzzzzzzzzzzzzzzzzzzz") := by
  constructor
  · have h := claim_C6_unknown_key_suggestion "pollingTimeoutt=60" (by decide)
    rw [h, if_pos (by decide)]
    rfl
  · have h := claim_C6_unknown_key_suggestion "zzzzzzzzzzzzzzzzzzzzzzzzzzzzzz=1" (by decide)
    rw [h, if_neg (by decide)]
    rfl

theorem splitAtFirstEq_none (l : List Char) (h : '=' ∉ l) :
    splitAtFirstEq l = none := by
  induction l with
  | nil => rfl
  | cons c cs ih =>
    rw [splitAtFirstEq,
      if_neg (fun hc : c = '=' => h (List.mem_cons.mpr (Or.inl hc.symm))),
      ih (fun hm => h (List.mem_cons_of_mem c hm))]
    rfl

theorem rawKeyOf_empty_of_no_eq (s : String) (h : '=' ∉ s.data) : rawKeyOf s = "" := by
  unfold rawKeyOf matchKeyValue
  split
  · rfl
  · rw [splitAtFirstEq_none s.data h]
    rfl

set_option maxRecDepth 200000 in
/-- Claim C9: an override string with no `'='` separator, or with an empty
key before the first `'='`, makes the resolver raise an invalid-key error
(with the nearest-key suggestion, which for the empty key is `body`) rather
than being silently ignored or treated as a value. -/
theorem claim_C9_missing_separator (s : String)
    (h : ('=' ∉ s.data) ∨ rawKeyOf s = "") :
    validateAndParseOverrides (some [s]) =
      .error (.invalidKeyWithSuggestion "" "body") := by
  have hkey : overrideKeyOf s = "" := by
    rcases h with h | h
    · unfold overrideKeyOf
      rw [rawKeyOf_empty_of_no_eq s h]
      rfl
    · unfold overrideKeyOf
      rw [h]
      rfl
  have hk : overrideKeyOf s ∉ allOverrideKeys := by
    rw [hkey]; decide
  have hp := parseOverride_unknown_key {} s hk
  rw [hkey] at hp
  rw [show closestKey "" = "body" from by decide] at hp
  rw [if_neg (show ¬levenshtein "body" "" > 5 from by decide)] at hp
  simp only [validateAndParseOverrides, List.foldlM]
  rw [hp]
  rfl

set_option maxRecDepth 200000 in
/-- Witness for claim C9: a string without `'='` and a string with an empty
key both fail with the invalid-key suggestion error. -/
theorem claim_C9_witness :
    validateAndParseOverrides (some ["noequalsign"]) =
      .error (.invalidKeyWithSuggestion "" "body")
    ∧ validateAndParseOverrides (some ["=value"]) =
      .error (.invalidKeyWithSuggestion "" "body") := by
  exact ⟨claim_C9_missing_separator "noequalsign" (Or.inl (by decide)),
    claim_C9_missing_separator "=value" (Or.inr (by decide))⟩

theorem boolean_true_strings_exclude_false (v : String)
    (h1 : jsToLowerCase v = "true" ∨ v = "1") :
    ¬(jsToLowerCase v = "false" ∨ v = "0") := by
  rcases h1 with h1 | h1 <;> rintro (h2 | h2)
  · rw [h1] at h2
    exact absurd h2 (by decide)
  · rw [h2] at h1
    exact absurd h1 (by decide)
  · rw [h1] at h2
    exact absurd h2 (by decide)
  · rw [h1] at h2
    exact absurd h2 (by decide)

/-- Claim C10: for a boolean-typed override key the accepted value strings
are exactly `true` (case-insensitive) and `1`, giving `true`, and `false`
(case-insensitive) and `0`, giving `false`; every other value raises the
invalid-boolean error. -/
theorem claim_C10_boolean_values (v : String) :
    (parseOverrideValue v .boolean = .ok (.b true) ↔ (jsToLowerCase v = "true" ∨ v = "1"))
    ∧ (parseOverrideValue v .boolean = .ok (.b false) ↔ (jsToLowerCase v = "false" ∨ v = "0"))
    ∧ (¬(jsToLowerCase v = "true" ∨ v = "1") → ¬(jsToLowerCase v = "false" ∨ v = "0") →
        parseOverrideValue v .boolean = .error (.invalidBoolean v)) := by
  by_cases h1 : jsToLowerCase v = "true" ∨ v = "1"
  · have h2 := boolean_true_strings_exclude_false v h1
    simp [parseOverrideValue, toBoolean, h1, h2]
  · by_cases h2 : jsToLowerCase v = "false" ∨ v = "0" <;>
      simp [parseOverrideValue, toBoolean, h1, h2]

/-- Witness for claim C10: `TRUE` is accepted case-insensitively, `0` yields
`false`, and `yes` is rejected. -/
theorem claim_C10_witness :
    parseOverrideValue "TRUE" .boolean = .ok (.b true)
    ∧ parseOverrideValue "0" .boolean = .ok (.b false)
    ∧ parseOverrideValue "yes" .boolean = .error (.invalidBoolean "yes") := by
  exact ⟨(claim_C10_boolean_values "TRUE").1.mpr (Or.inl (by decide)),
    (claim_C10_boolean_values "0").2.1.mpr (Or.inr rfl),
    (claim_C10_boolean_values "yes").2.2 (by decide) (by decide)⟩

end DatadogCI
